import Mathlib

/-!
Shallow embedding of copick's object model (`src/copick/models.py`).

Conventions used throughout:
* Python floats are modelled as exact rationals (`ℚ`); the source only ever
  compares them with `==`, stores them, or formats them into messages.
* Python exceptions are modelled with `Except Err`.  A method that can both
  mutate its object and raise is modelled as a function returning
  `Except Err α × State`; the second component is the state left behind, so
  mutations performed before a raise persist, as in Python.
* The overridable storage-backend methods (the spec's "Backend Contract") are
  collected in a `Backend` record, standing for a concrete subclass.  The
  abstract base-class bodies themselves are given separately as `*Base`
  definitions.
* An `Option` on a cache field models Python's `None` ("never loaded") versus
  a loaded (possibly empty) list.
* The lookup methods additionally report the list of backend interactions
  they performed (`BCall`), so that "single existence check" versus "full
  collection load" is observable in the model.
-/

/-- Python exception kinds raised by the modelled code. -/
inductive Err where
  | valueError (msg : String)
  | notImplementedError (msg : String)
  | typeError (msg : String)
  deriving DecidableEq

/-- One backend interaction performed by a lookup: an existence check
(`ensure(create=...)`) or a full collection query. -/
inductive BCall where
  | ensure (create : Bool)
  | query
  deriving DecidableEq

/-- Metadata for a pickable object (`PickableObject` pydantic model).  The
RGBA color is modelled as a list of integers so that tuples of the wrong
arity can be expressed. -/
structure PickableObject where
  name : String
  is_particle : Bool
  label : Option Int := none
  color : Option (List Int) := none
  emdb_id : Option String := none
  pdb_id : Option String := none
  map_threshold : Option ℚ := none
  radius : Option ℚ := none
  deriving DecidableEq

/-- `PickableObject.validate_label`: `assert v != 0`. -/
def validate_label (v : Option Int) : Except String (Option Int) :=
  if v = some 0 then Except.error "Label 0 is reserved for background."
  else Except.ok v

/-- Pydantic's own type validation of `Tuple[int, int, int, int]`, which
rejects tuples of the wrong arity before the custom validator runs. -/
def parseColorArity (v : List Int) : Except String (List Int) :=
  if v.length = 4 then Except.ok v
  else Except.error "value is not a valid tuple (wrong arity)"

/-- `PickableObject.validate_color`: `assert len(v) == 4` then
`assert all(0 <= c <= 255 for c in v)`. -/
def validate_color (v : List Int) : Except String (List Int) :=
  if v.length = 4 then
    if v.all (fun c => decide (0 ≤ c ∧ c ≤ 255)) then Except.ok v
    else Except.error "Color values must be in the range [0, 255]."
  else Except.error "Color must be a 4-tuple (RGBA)."

/-- Construction of a `PickableObject` through pydantic: the type check and
the field validators run in field order (label before color); a `none` color
means the field was not supplied and keeps its default. -/
def PickableObject.construct (name : String) (is_particle : Bool)
    (label : Option Int) (color : Option (List Int)) :
    Except String PickableObject :=
  match validate_label label with
  | Except.error e => Except.error e
  | Except.ok label =>
    match color with
    | none =>
      Except.ok { name := name, is_particle := is_particle, label := label, color := none }
    | some v =>
      match parseColorArity v with
      | Except.error e => Except.error e
      | Except.ok v =>
        match validate_color v with
        | Except.error e => Except.error e
        | Except.ok v =>
          Except.ok { name := name, is_particle := is_particle, label := label,
                      color := some v }

/-- Location in 3D space (`CopickLocation`). -/
structure CopickLocation where
  x : ℚ
  y : ℚ
  z : ℚ
  deriving DecidableEq

/-- Point with orientation (`CopickPoint`); the transformation is stored as a
list-of-rows matrix, defaulting to the identity. -/
structure CopickPoint where
  location : CopickLocation
  transformation_ : List (List ℚ) :=
    [[1, 0, 0, 0], [0, 1, 0, 0], [0, 0, 1, 0], [0, 0, 0, 1]]
  instance_id : Option Int := some 0
  score : Option ℚ := some 1
  deriving DecidableEq

/-- Default absolute tolerance of `np.allclose`. -/
def atol : ℚ := 1 / 100000000

/-- Default relative tolerance of `np.allclose`. -/
def rtol : ℚ := 1 / 100000

/-- Absolute value on rationals, written so that it evaluates by kernel
reduction. -/
def rabs (q : ℚ) : ℚ := if q < 0 then -q else q

/-- Elementwise closeness test of `np.allclose`. -/
def isClose (a b : ℚ) : Bool := decide (rabs (a - b) ≤ atol + rtol * rabs b)

/-- `np.allclose` on two equal-shaped 1D arrays. -/
def allclose (xs ys : List ℚ) : Bool :=
  decide (xs.length = ys.length) && (xs.zip ys).all fun ab => isClose ab.1 ab.2

/-- `arr.shape == (4, 4)` for a list-of-rows matrix. -/
def shape44 (m : List (List ℚ)) : Bool :=
  decide (m.length = 4) && m.all fun row => decide (row.length = 4)

/-- Matrix element access `arr[i, j]`. -/
def entry (m : List (List ℚ)) (i j : Nat) : ℚ := (m.getD i []).getD j 0

/-- Bottom row access `arr[3, :]`. -/
def row3 (m : List (List ℚ)) : List ℚ := m.getD 3 []

/-- `CopickPoint.validate_transformation`: the three asserts in source
order (shape, corner element, bottom row). -/
def validate_transformation (v : List (List ℚ)) :
    Except String (List (List ℚ)) :=
  if shape44 v then
    if entry v 3 3 = 1 then
      if allclose (row3 v) [0, 0, 0, 1] then Except.ok v
      else Except.error "Last row of transformation matrix must be [0, 0, 0, 1]."
    else Except.error "Last element of transformation matrix must be 1.0."
  else Except.error "transformation must be a 4x4 matrix."

/-- The `CopickPoint.transformation` property getter
(`np.array(self.transformation_)`). -/
def CopickPoint.transformation (p : CopickPoint) : List (List ℚ) :=
  p.transformation_

/-- The `CopickPoint.transformation` property setter: re-validates with the
same rule (shape, corner, bottom row) before storing `value.tolist()`. -/
def CopickPoint.set_transformation (p : CopickPoint) (value : List (List ℚ)) :
    Except String CopickPoint :=
  if shape44 value then
    if entry value 3 3 = 1 then
      if allclose (row3 value) [0, 0, 0, 1] then
        Except.ok { p with transformation_ := value }
      else Except.error "Last row of transformation matrix must be [0, 0, 0, 1]."
    else Except.error "Last element of transformation matrix must be 1.0."
  else Except.error "Transformation must be a 4x4 matrix."

/-- Opaque stand-in for `trimesh.parent.Geometry`; the core never inspects
mesh geometry (spec section 6 treats it as an opaque collaborator). -/
inductive Geometry where
  | scene (content : List String)
  deriving DecidableEq

/-- The empty scene `trimesh.Trimesh().scene()` built by `new_mesh`. -/
def emptySceneGeometry : Geometry := Geometry.scene []

/-- Project configuration (`CopickConfig`), restricted to the fields the
modelled operations read. -/
structure CopickConfig where
  name : Option String := some "CoPick"
  description : Option String := some ("Let" ++ String.singleton (Char.ofNat 39) ++ "s CoPick!")
  version : Option String := some "0.2.0"
  pickable_objects : List PickableObject
  user_id : Option String := none
  session_id : Option String := none
  runs : Option (List String) := none
  voxel_spacings : Option (List ℚ) := none
  deriving DecidableEq

/-- Run-level metadata (`CopickRunMeta`). -/
structure CopickRunMeta where
  name : String
  deriving DecidableEq

/-- Voxel-spacing metadata (`CopickVoxelSpacingMeta`). -/
structure CopickVoxelSpacingMeta where
  voxel_size : ℚ
  deriving DecidableEq

/-- Tomogram metadata (`CopickTomogramMeta`). -/
structure CopickTomogramMeta where
  tomo_type : String
  deriving DecidableEq

/-- Feature-map metadata (`CopickFeaturesMeta`). -/
structure CopickFeaturesMeta where
  tomo_type : String
  feature_type : String
  deriving DecidableEq

/-- Picks metadata (`CopickPicksFile`). -/
structure CopickPicksFile where
  pickable_object_name : String
  user_id : String
  session_id : String
  run_name : Option String := none
  voxel_spacing : Option ℚ := none
  unit : String := "angstrom"
  points : Option (List CopickPoint) := none
  trust_orientation : Option Bool := some true
  deriving DecidableEq

/-- Mesh metadata (`CopickMeshMeta`). -/
structure CopickMeshMeta where
  pickable_object_name : String
  user_id : String
  session_id : String
  deriving DecidableEq

/-- Segmentation metadata (`CopickSegmentationMeta`). -/
structure CopickSegmentationMeta where
  user_id : String
  session_id : String
  name : String
  is_multilabel : Bool
  voxel_size : ℚ
  deriving DecidableEq

/-- Feature-map entity (`CopickFeatures`). -/
structure CopickFeatures where
  meta : CopickFeaturesMeta
  deriving DecidableEq

/-- Tomogram entity (`CopickTomogram`) with its lazy features cache. -/
structure CopickTomogram where
  meta : CopickTomogramMeta
  features_ : Option (List CopickFeatures) := none
  deriving DecidableEq

/-- Voxel-spacing entity (`CopickVoxelSpacing`) with its lazy tomogram
cache. -/
structure CopickVoxelSpacing where
  meta : CopickVoxelSpacingMeta
  tomograms_ : Option (List CopickTomogram) := none
  deriving DecidableEq

/-- Picks entity (`CopickPicks`): a metadata record; the run back-reference
is passed explicitly to the operations that need it. -/
structure CopickPicks where
  meta : CopickPicksFile
  deriving DecidableEq

/-- Mesh entity (`CopickMesh`) with its (lazily loaded) geometry. -/
structure CopickMesh where
  meta : CopickMeshMeta
  mesh_ : Option Geometry := none
  deriving DecidableEq

/-- Segmentation entity (`CopickSegmentation`). -/
structure CopickSegmentation where
  meta : CopickSegmentationMeta
  deriving DecidableEq

/-- Run entity (`CopickRun`) with its four lazy child caches.  The Python
back-reference `run.root` is modelled by passing the root's config to the
operations that consult it. -/
structure CopickRun where
  meta : CopickRunMeta
  voxel_spacings_ : Option (List CopickVoxelSpacing) := none
  picks_ : Option (List CopickPicks) := none
  meshes_ : Option (List CopickMesh) := none
  segmentations_ : Option (List CopickSegmentation) := none
  deriving DecidableEq

/-- Root entity (`CopickRoot`) with its config and lazy run cache. -/
structure CopickRoot where
  config : CopickConfig
  runs_ : Option (List CopickRun) := none
  deriving DecidableEq

/-- A concrete storage backend: the overridable methods of the Backend
Contract as supplied by a subclass.  `rootQuery` may produce `none` because
the base `CopickRoot.query` body is `pass` (returns `None`). -/
structure Backend where
  rootQuery : Except Err (Option (List CopickRun))
  runEnsure : CopickRunMeta → Bool → Except Err Bool
  queryVoxelspacings : CopickRunMeta → Except Err (List CopickVoxelSpacing)
  queryPicks : CopickRunMeta → Except Err (List CopickPicks)
  queryMeshes : CopickRunMeta → Except Err (List CopickMesh)
  querySegmentations : CopickRunMeta → Except Err (List CopickSegmentation)
  vsEnsure : CopickVoxelSpacingMeta → Bool → Except Err Bool
  queryTomograms : CopickVoxelSpacingMeta → Except Err (List CopickTomogram)
  queryFeatures : CopickTomogramMeta → Except Err (List CopickFeatures)
  tomoZarr : CopickTomogramMeta → Except Err Unit
  featZarr : CopickFeaturesMeta → Except Err Unit
  segZarr : CopickSegmentationMeta → Except Err Unit
  picksStore : CopickPicksFile → Except Err Unit
  meshStore : CopickMeshMeta → Except Err Unit

/-- Base `CopickRoot.query`: the body is `pass`, so it returns `None`
normally instead of raising. -/
def CopickRoot.queryBase : Option (List CopickRun) := none

/-- Base `CopickRun.query_voxelspacings`. -/
def CopickRun.query_voxelspacingsBase : Except Err (List CopickVoxelSpacing) :=
  Except.error (Err.notImplementedError "query_voxelspacings must be implemented for CopickRun.")

/-- Base `CopickRun.query_picks`. -/
def CopickRun.query_picksBase : Except Err (List CopickPicks) :=
  Except.error (Err.notImplementedError "query_picks must be implemented for CopickRun.")

/-- Base `CopickRun.query_meshes`. -/
def CopickRun.query_meshesBase : Except Err (List CopickMesh) :=
  Except.error (Err.notImplementedError "query_meshes must be implemented for CopickRun.")

/-- Base `CopickRun.query_segmentations`. -/
def CopickRun.query_segmentationsBase : Except Err (List CopickSegmentation) :=
  Except.error (Err.notImplementedError "query_segmentations must be implemented for CopickRun.")

/-- Base `CopickRun.ensure`. -/
def CopickRun.ensureBase (create : Bool) : Except Err Bool :=
  Except.error (Err.notImplementedError "ensure must be implemented for CopickRun.")

/-- Base `CopickVoxelSpacing.query_tomograms`. -/
def CopickVoxelSpacing.query_tomogramsBase : Except Err (List CopickTomogram) :=
  Except.error (Err.notImplementedError "query_tomograms must be implemented for CopickVoxelSpacing.")

/-- Base `CopickVoxelSpacing.ensure`. -/
def CopickVoxelSpacing.ensureBase (create : Bool) : Except Err Bool :=
  Except.error (Err.notImplementedError "ensure must be implemented for CopickVoxelSpacing.")

/-- Base `CopickTomogram.query_features`. -/
def CopickTomogram.query_featuresBase : Except Err (List CopickFeatures) :=
  Except.error (Err.notImplementedError "query_features must be implemented for CopickTomogram.")

/-- Base `CopickTomogram.zarr`. -/
def CopickTomogram.zarrBase : Except Err Unit :=
  Except.error (Err.notImplementedError "zarr must be implemented for CopickTomogram.")

/-- Base `CopickFeatures.zarr`. -/
def CopickFeatures.zarrBase : Except Err Unit :=
  Except.error (Err.notImplementedError "zarr must be implemented for CopickFeatures.")

/-- Base `CopickSegmentation.zarr`. -/
def CopickSegmentation.zarrBase : Except Err Unit :=
  Except.error (Err.notImplementedError "zarr must be implemented for CopickSegmentation.")

/-- Base `CopickPicks._load`. -/
def CopickPicks.loadBase : Except Err CopickPicksFile :=
  Except.error (Err.notImplementedError "load must be implemented for CopickPicks.")

/-- Base `CopickPicks._store`. -/
def CopickPicks.storeBase : Except Err Unit :=
  Except.error (Err.notImplementedError "store must be implemented for CopickPicks.")

/-- Base `CopickMesh._load`. -/
def CopickMesh.loadBase : Except Err Geometry :=
  Except.error (Err.notImplementedError "load must be implemented for CopickMesh.")

/-- Base `CopickMesh._store`. -/
def CopickMesh.storeBase : Except Err Unit :=
  Except.error (Err.notImplementedError "store must be implemented for CopickMesh.")

/-- Base `CopickObject.zarr`: returns `None` for non-particle objects and
raises for particle objects. -/
def CopickObject.zarrBase (is_particle : Bool) : Except Err (Option Unit) :=
  if is_particle then
    Except.error (Err.notImplementedError "zarr method must be implemented for particle objects.")
  else Except.ok none

/-- The abstract base classes seen as a backend: every contract method
behaves as its base-class body. -/
def baseBackend : Backend where
  rootQuery := Except.ok CopickRoot.queryBase
  runEnsure := fun _ c => CopickRun.ensureBase c
  queryVoxelspacings := fun _ => CopickRun.query_voxelspacingsBase
  queryPicks := fun _ => CopickRun.query_picksBase
  queryMeshes := fun _ => CopickRun.query_meshesBase
  querySegmentations := fun _ => CopickRun.query_segmentationsBase
  vsEnsure := fun _ c => CopickVoxelSpacing.ensureBase c
  queryTomograms := fun _ => CopickVoxelSpacing.query_tomogramsBase
  queryFeatures := fun _ => CopickTomogram.query_featuresBase
  tomoZarr := fun _ => CopickTomogram.zarrBase
  featZarr := fun _ => CopickFeatures.zarrBase
  segZarr := fun _ => CopickSegmentation.zarrBase
  picksStore := fun _ => CopickPicks.storeBase
  meshStore := fun _ => CopickMesh.storeBase

/-- The `CopickRoot.runs` property: return the cache if populated, otherwise
assign it the result of `self.query()` (which may legitimately be `None` for
the base class). -/
def CopickRoot.runsProp (be : Backend) (root : CopickRoot) :
    Except Err (Option (List CopickRun)) × CopickRoot :=
  match root.runs_ with
  | some rs => (Except.ok (some rs), root)
  | none =>
    match be.rootQuery with
    | Except.error e => (Except.error e, root)
    | Except.ok r => (Except.ok r, { root with runs_ := r })

/-- The `CopickRun.voxel_spacings` property. -/
def CopickRun.voxel_spacingsProp (be : Backend) (run : CopickRun) :
    Except Err (List CopickVoxelSpacing) × CopickRun :=
  match run.voxel_spacings_ with
  | some vss => (Except.ok vss, run)
  | none =>
    match be.queryVoxelspacings run.meta with
    | Except.error e => (Except.error e, run)
    | Except.ok vss => (Except.ok vss, { run with voxel_spacings_ := some vss })

/-- The `CopickRun.picks` property. -/
def CopickRun.picksProp (be : Backend) (run : CopickRun) :
    Except Err (List CopickPicks) × CopickRun :=
  match run.picks_ with
  | some ps => (Except.ok ps, run)
  | none =>
    match be.queryPicks run.meta with
    | Except.error e => (Except.error e, run)
    | Except.ok ps => (Except.ok ps, { run with picks_ := some ps })

/-- The `CopickRun.meshes` property. -/
def CopickRun.meshesProp (be : Backend) (run : CopickRun) :
    Except Err (List CopickMesh) × CopickRun :=
  match run.meshes_ with
  | some ms => (Except.ok ms, run)
  | none =>
    match be.queryMeshes run.meta with
    | Except.error e => (Except.error e, run)
    | Except.ok ms => (Except.ok ms, { run with meshes_ := some ms })

/-- The `CopickRun.segmentations` property. -/
def CopickRun.segmentationsProp (be : Backend) (run : CopickRun) :
    Except Err (List CopickSegmentation) × CopickRun :=
  match run.segmentations_ with
  | some ss => (Except.ok ss, run)
  | none =>
    match be.querySegmentations run.meta with
    | Except.error e => (Except.error e, run)
    | Except.ok ss => (Except.ok ss, { run with segmentations_ := some ss })

/-- The `CopickVoxelSpacing.tomograms` property. -/
def CopickVoxelSpacing.tomogramsProp (be : Backend) (vs : CopickVoxelSpacing) :
    Except Err (List CopickTomogram) × CopickVoxelSpacing :=
  match vs.tomograms_ with
  | some ts => (Except.ok ts, vs)
  | none =>
    match be.queryTomograms vs.meta with
    | Except.error e => (Except.error e, vs)
    | Except.ok ts => (Except.ok ts, { vs with tomograms_ := some ts })

/-- The `CopickTomogram.features` property. -/
def CopickTomogram.featuresProp (be : Backend) (t : CopickTomogram) :
    Except Err (List CopickFeatures) × CopickTomogram :=
  match t.features_ with
  | some fs => (Except.ok fs, t)
  | none =>
    match be.queryFeatures t.meta with
    | Except.error e => (Except.error e, t)
    | Except.ok fs => (Except.ok fs, { t with features_ := some fs })

/-- `CopickRoot.get_run`: random access through a transient instance and a
single `ensure(create=False)` when the cache is unpopulated, linear scan of
the cache otherwise.  The third component records the backend interactions
performed. -/
def CopickRoot.get_run (be : Backend) (root : CopickRoot) (name : String) :
    Except Err (Option CopickRun) × CopickRoot × List BCall :=
  match root.runs_ with
  | none =>
    let run : CopickRun := { meta := { name := name } }
    match be.runEnsure run.meta false with
    | Except.error e => (Except.error e, root, [BCall.ensure false])
    | Except.ok false => (Except.ok none, root, [BCall.ensure false])
    | Except.ok true => (Except.ok (some run), root, [BCall.ensure false])
  | some rs =>
    (Except.ok (rs.find? fun r => r.meta.name == name), root, [])

/-- `CopickRun.get_voxel_spacing`: same dual path as `get_run`. -/
def CopickRun.get_voxel_spacing (be : Backend) (run : CopickRun) (voxel_size : ℚ) :
    Except Err (Option CopickVoxelSpacing) × CopickRun × List BCall :=
  match run.voxel_spacings_ with
  | none =>
    let vs : CopickVoxelSpacing := { meta := { voxel_size := voxel_size } }
    match be.vsEnsure vs.meta false with
    | Except.error e => (Except.error e, run, [BCall.ensure false])
    | Except.ok false => (Except.ok none, run, [BCall.ensure false])
    | Except.ok true => (Except.ok (some vs), run, [BCall.ensure false])
  | some vss =>
    (Except.ok (vss.find? fun v => v.meta.voxel_size == voxel_size), run, [])

/-- `CopickVoxelSpacing.get_tomogram`: iterates `self.tomograms`, which
triggers a full `query_tomograms` load when the cache is unpopulated. -/
def CopickVoxelSpacing.get_tomogram (be : Backend) (vs : CopickVoxelSpacing)
    (tomo_type : String) :
    Except Err (Option CopickTomogram) × CopickVoxelSpacing × List BCall :=
  let tr : List BCall := match vs.tomograms_ with | none => [BCall.query] | some _ => []
  match vs.tomogramsProp be with
  | (Except.error e, vs') => (Except.error e, vs', tr)
  | (Except.ok ts, vs') =>
    (Except.ok (ts.find? fun t => t.meta.tomo_type == tomo_type), vs', tr)

/-- `CopickRun.get_picks`: reads the `picks` property and then applies the
three optional filters in source order (object name, user id, session id). -/
def CopickRun.get_picks (be : Backend) (run : CopickRun)
    (object_name user_id session_id : Option String) :
    Except Err (List CopickPicks) × CopickRun :=
  match run.picksProp be with
  | (Except.error e, run') => (Except.error e, run')
  | (Except.ok ret0, run') =>
    let ret1 := match object_name with
      | none => ret0
      | some x => ret0.filter fun p => p.meta.pickable_object_name == x
    let ret2 := match user_id with
      | none => ret1
      | some x => ret1.filter fun p => p.meta.user_id == x
    let ret3 := match session_id with
      | none => ret2
      | some x => ret2.filter fun p => p.meta.session_id == x
    (Except.ok ret3, run')

/-- `CopickRun.user_picks`: session-based filter when the root config has no
user id, otherwise `get_picks(user_id=config.user_id)`. -/
def CopickRun.user_picks (be : Backend) (cfg : CopickConfig) (run : CopickRun) :
    Except Err (List CopickPicks) × CopickRun :=
  match cfg.user_id with
  | none =>
    match run.picksProp be with
    | (Except.error e, run') => (Except.error e, run')
    | (Except.ok ps, run') =>
      (Except.ok (ps.filter fun p => p.meta.session_id != "0"), run')
  | some uid => CopickRun.get_picks be run none (some uid) none

/-- `CopickRun.tool_picks`: picks with the reserved tool session id. -/
def CopickRun.tool_picks (be : Backend) (run : CopickRun) :
    Except Err (List CopickPicks) × CopickRun :=
  match run.picksProp be with
  | (Except.error e, run') => (Except.error e, run')
  | (Except.ok ps, run') =>
    (Except.ok (ps.filter fun p => p.meta.session_id == "0"), run')

/-- `CopickRun.get_meshes`: same filter chain as `get_picks`. -/
def CopickRun.get_meshes (be : Backend) (run : CopickRun)
    (object_name user_id session_id : Option String) :
    Except Err (List CopickMesh) × CopickRun :=
  match run.meshesProp be with
  | (Except.error e, run') => (Except.error e, run')
  | (Except.ok ret0, run') =>
    let ret1 := match object_name with
      | none => ret0
      | some x => ret0.filter fun m => m.meta.pickable_object_name == x
    let ret2 := match user_id with
      | none => ret1
      | some x => ret1.filter fun m => m.meta.user_id == x
    let ret3 := match session_id with
      | none => ret2
      | some x => ret2.filter fun m => m.meta.session_id == x
    (Except.ok ret3, run')

/-- `CopickRun.get_segmentations`: the five optional filters in source order
(user id, session id, multilabel flag, name, voxel size). -/
def CopickRun.get_segmentations (be : Backend) (run : CopickRun)
    (user_id session_id : Option String) (is_multilabel : Option Bool)
    (name : Option String) (voxel_size : Option ℚ) :
    Except Err (List CopickSegmentation) × CopickRun :=
  match run.segmentationsProp be with
  | (Except.error e, run') => (Except.error e, run')
  | (Except.ok ret0, run') =>
    let ret1 := match user_id with
      | none => ret0
      | some x => ret0.filter fun s => s.meta.user_id == x
    let ret2 := match session_id with
      | none => ret1
      | some x => ret1.filter fun s => s.meta.session_id == x
    let ret3 := match is_multilabel with
      | none => ret2
      | some x => ret2.filter fun s => s.meta.is_multilabel == x
    let ret4 := match name with
      | none => ret3
      | some x => ret3.filter fun s => s.meta.name == x
    let ret5 := match voxel_size with
      | none => ret4
      | some x => ret4.filter fun s => s.meta.voxel_size == x
    (Except.ok ret5, run')

/-- `CopickRoot.new_run`: conflict check against the loaded run list, then
construct, append to the cache, and only then `ensure(create=True)`. -/
def CopickRoot.new_run (be : Backend) (root : CopickRoot) (name : String) :
    Except Err CopickRun × CopickRoot :=
  match CopickRoot.runsProp be root with
  | (Except.error e, root1) => (Except.error e, root1)
  | (Except.ok none, root1) =>
    (Except.error (Err.typeError "argument of type NoneType is not iterable"), root1)
  | (Except.ok (some rs), root1) =>
    if name ∈ rs.map (fun r => r.meta.name) then
      (Except.error (Err.valueError ("Run name " ++ name ++ " already exists.")), root1)
    else
      let run : CopickRun := { meta := { name := name } }
      let root2 : CopickRoot := { root1 with runs_ := some (rs ++ [run]) }
      match be.runEnsure run.meta true with
      | Except.error e => (Except.error e, root2)
      | Except.ok _ => (Except.ok run, root2)

/-- `CopickRun.new_voxel_spacing`: conflict check, construct, append, then
`ensure(create=True)`. -/
def CopickRun.new_voxel_spacing (be : Backend) (run : CopickRun) (voxel_size : ℚ) :
    Except Err CopickVoxelSpacing × CopickRun :=
  match CopickRun.voxel_spacingsProp be run with
  | (Except.error e, run1) => (Except.error e, run1)
  | (Except.ok vss, run1) =>
    if voxel_size ∈ vss.map (fun v => v.meta.voxel_size) then
      (Except.error (Err.valueError ("VoxelSpacing " ++ toString voxel_size ++ " already exists for this run.")), run1)
    else
      let vs : CopickVoxelSpacing := { meta := { voxel_size := voxel_size } }
      let run2 : CopickRun := { run1 with voxel_spacings_ := some (vss ++ [vs]) }
      match be.vsEnsure vs.meta true with
      | Except.error e => (Except.error e, run2)
      | Except.ok _ => (Except.ok vs, run2)

/-- `CopickVoxelSpacing.new_tomogram`: conflict check, construct, append,
then create the zarr store. -/
def CopickVoxelSpacing.new_tomogram (be : Backend) (vs : CopickVoxelSpacing)
    (tomo_type : String) : Except Err CopickTomogram × CopickVoxelSpacing :=
  match CopickVoxelSpacing.tomogramsProp be vs with
  | (Except.error e, vs1) => (Except.error e, vs1)
  | (Except.ok ts, vs1) =>
    if tomo_type ∈ ts.map (fun t => t.meta.tomo_type) then
      (Except.error (Err.valueError ("Tomogram type " ++ tomo_type ++ " already exists for this voxel spacing.")), vs1)
    else
      let tomo : CopickTomogram := { meta := { tomo_type := tomo_type } }
      let vs2 : CopickVoxelSpacing := { vs1 with tomograms_ := some (ts ++ [tomo]) }
      match be.tomoZarr tomo.meta with
      | Except.error e => (Except.error e, vs2)
      | Except.ok _ => (Except.ok tomo, vs2)

/-- `CopickTomogram.new_features`: conflict check, construct, append, then
create the zarr store. -/
def CopickTomogram.new_features (be : Backend) (t : CopickTomogram)
    (feature_type : String) : Except Err CopickFeatures × CopickTomogram :=
  match CopickTomogram.featuresProp be t with
  | (Except.error e, t1) => (Except.error e, t1)
  | (Except.ok fs, t1) =>
    if feature_type ∈ fs.map (fun f => f.meta.feature_type) then
      (Except.error (Err.valueError ("Feature type " ++ feature_type ++ " already exists for this tomogram.")), t1)
    else
      let fm : CopickFeaturesMeta := { tomo_type := t.meta.tomo_type, feature_type := feature_type }
      let feat : CopickFeatures := { meta := fm }
      let t2 : CopickTomogram := { t1 with features_ := some (fs ++ [feat]) }
      match be.featZarr fm with
      | Except.error e => (Except.error e, t2)
      | Except.ok _ => (Except.ok feat, t2)

/-- `CopickRun.new_picks`: referential check against the root's pickable
objects, user-id resolution, identity-key conflict check, construct, append,
then store through the backend. -/
def CopickRun.new_picks (be : Backend) (cfg : CopickConfig) (run : CopickRun)
    (object_name session_id : String) (user_id : Option String) :
    Except Err CopickPicks × CopickRun :=
  if object_name ∉ cfg.pickable_objects.map (fun o => o.name) then
    (Except.error (Err.valueError ("Object name " ++ object_name ++ " not found in pickable objects.")), run)
  else
    let uid := match user_id with
      | none => cfg.user_id
      | some u => some u
    match uid with
    | none =>
      (Except.error (Err.valueError "User ID must be set in the root config or supplied to new_picks."), run)
    | some uid =>
      match CopickRun.get_picks be run (some object_name) (some uid) (some session_id) with
      | (Except.error e, run1) => (Except.error e, run1)
      | (Except.ok dups, run1) =>
        if dups ≠ [] then
          (Except.error (Err.valueError ("Picks for " ++ object_name ++ " by user/tool " ++ uid ++ " already exist in session " ++ session_id ++ ".")), run1)
        else
          let pm : CopickPicksFile :=
            { pickable_object_name := object_name, user_id := uid,
              session_id := session_id, run_name := some run.meta.name }
          let picks : CopickPicks := { meta := pm }
          let run2 : CopickRun := { run1 with picks_ := some ((run1.picks_.getD []) ++ [picks]) }
          match be.picksStore pm with
          | Except.error e => (Except.error e, run2)
          | Except.ok _ => (Except.ok picks, run2)

/-- `CopickRun.new_mesh`: same shape as `new_picks`, constructing an empty
trimesh scene for the new entity. -/
def CopickRun.new_mesh (be : Backend) (cfg : CopickConfig) (run : CopickRun)
    (object_name session_id : String) (user_id : Option String) :
    Except Err CopickMesh × CopickRun :=
  if object_name ∉ cfg.pickable_objects.map (fun o => o.name) then
    (Except.error (Err.valueError ("Object name " ++ object_name ++ " not found in pickable objects.")), run)
  else
    let uid := match user_id with
      | none => cfg.user_id
      | some u => some u
    match uid with
    | none =>
      (Except.error (Err.valueError "User ID must be set in the root config or supplied to new_mesh."), run)
    | some uid =>
      match CopickRun.get_meshes be run (some object_name) (some uid) (some session_id) with
      | (Except.error e, run1) => (Except.error e, run1)
      | (Except.ok dups, run1) =>
        if dups ≠ [] then
          (Except.error (Err.valueError ("Mesh for " ++ object_name ++ " by user/tool " ++ uid ++ " already exist in session " ++ session_id ++ ".")), run1)
        else
          let mm : CopickMeshMeta :=
            { pickable_object_name := object_name, user_id := uid, session_id := session_id }
          let mesh : CopickMesh := { meta := mm, mesh_ := some emptySceneGeometry }
          let run2 : CopickRun := { run1 with meshes_ := some ((run1.meshes_.getD []) ++ [mesh]) }
          match be.meshStore mm with
          | Except.error e => (Except.error e, run2)
          | Except.ok _ => (Except.ok mesh, run2)

/-- `CopickRun.new_segmentation`: single-label name check, voxel-size
referential check against the run's voxel spacings, user-id resolution,
identity-key conflict check, construct, append, then create the zarr
store. -/
def CopickRun.new_segmentation (be : Backend) (cfg : CopickConfig) (run : CopickRun)
    (voxel_size : ℚ) (name session_id : String) (is_multilabel : Bool)
    (user_id : Option String) :
    Except Err CopickSegmentation × CopickRun :=
  if is_multilabel = false ∧ name ∉ cfg.pickable_objects.map (fun o => o.name) then
    (Except.error (Err.valueError ("Object name " ++ name ++ " not found in pickable objects.")), run)
  else
    match CopickRun.voxel_spacingsProp be run with
    | (Except.error e, run1) => (Except.error e, run1)
    | (Except.ok vss, run1) =>
      if voxel_size ∉ vss.map (fun v => v.meta.voxel_size) then
        (Except.error (Err.valueError ("VoxelSpacing " ++ toString voxel_size ++ " not found in voxel spacings for run " ++ run.meta.name ++ ".")), run1)
      else
        let uid := match user_id with
          | none => cfg.user_id
          | some u => some u
        match uid with
        | none =>
          (Except.error (Err.valueError "User ID must be set in the root config or supplied to new_segmentation."), run1)
        | some uid =>
          match CopickRun.get_segmentations be run1 (some uid) (some session_id)
              (some is_multilabel) (some name) (some voxel_size) with
          | (Except.error e, run2) => (Except.error e, run2)
          | (Except.ok dups, run2) =>
            if dups ≠ [] then
              (Except.error (Err.valueError ("Segmentation by user/tool " ++ uid ++ " already exist in session " ++ session_id ++ " with name " ++ name ++ ", voxel size of " ++ toString voxel_size ++ ", and has a multilabel flag of " ++ toString is_multilabel ++ ".")), run2)
            else
              let sm : CopickSegmentationMeta :=
                { is_multilabel := is_multilabel, voxel_size := voxel_size,
                  user_id := uid, session_id := session_id, name := name }
              let seg : CopickSegmentation := { meta := sm }
              let run3 : CopickRun := { run2 with segmentations_ := some ((run2.segmentations_.getD []) ++ [seg]) }
              match be.segZarr sm with
              | Except.error e => (Except.error e, run3)
              | Except.ok _ => (Except.ok seg, run3)

/-- Conjunctive form of the `get_picks` filter criteria; symmetric in the
three criteria, so the order in which the filters are applied cannot
matter. -/
def pickMatch (obj u s : Option String) (p : CopickPicks) : Bool :=
  (obj.all fun x => p.meta.pickable_object_name == x) &&
  ((u.all fun x => p.meta.user_id == x) &&
   (s.all fun x => p.meta.session_id == x))

/-- Application of one optional equality filter, keyed by a projection. -/
def filterBy {α β : Type} [BEq β] (key : α → β) (q : Option β) (l : List α) : List α :=
  match q with
  | none => l
  | some x => l.filter fun a => key a == x

/-- Concrete pickable object used by the witnesses. -/
def ribosome : PickableObject :=
  { name := "ribosome", is_particle := true, label := some 1, color := some [255, 0, 0, 255] }

/-- Concrete config with one pickable object and no user id. -/
def cfg0 : CopickConfig := { pickable_objects := [ribosome] }

/-- Concrete config with a configured user id. -/
def cfgAlice : CopickConfig := { pickable_objects := [ribosome], user_id := some "alice" }

/-- A fully implemented backend whose persistence operations all succeed. -/
def okBackend : Backend where
  rootQuery := Except.ok (some [])
  runEnsure := fun _ _ => Except.ok true
  queryVoxelspacings := fun _ => Except.ok []
  queryPicks := fun _ => Except.ok []
  queryMeshes := fun _ => Except.ok []
  querySegmentations := fun _ => Except.ok []
  vsEnsure := fun _ _ => Except.ok true
  queryTomograms := fun _ => Except.ok []
  queryFeatures := fun _ => Except.ok []
  tomoZarr := fun _ => Except.ok ()
  featZarr := fun _ => Except.ok ()
  segZarr := fun _ => Except.ok ()
  picksStore := fun _ => Except.ok ()
  meshStore := fun _ => Except.ok ()

/-- The run created by the witnesses. -/
def runTS : CopickRun := { meta := { name := "TS_001" } }

/-- A root with a populated-but-empty run cache. -/
def rootEmpty : CopickRoot := { config := cfg0, runs_ := some [] }

/-- A root whose run cache already holds `runTS`. -/
def rootDup : CopickRoot := { config := cfg0, runs_ := some [runTS] }

/-- A concrete tomogram known to the backend `beTomo`. -/
def tomoWbp : CopickTomogram := { meta := { tomo_type := "wbp" } }

/-- A backend whose tomogram query returns `tomoWbp`. -/
def beTomo : Backend := { okBackend with queryTomograms := fun _ => Except.ok [tomoWbp] }

/-- A voxel spacing with an unpopulated tomogram cache. -/
def vsColdCache : CopickVoxelSpacing := { meta := { voxel_size := 10 } }

/-- Concrete picks for the filter witnesses. -/
def pickAlice1 : CopickPicks :=
  { meta := { pickable_object_name := "ribosome", user_id := "alice", session_id := "1" } }

/-- A tool-generated pick (session id "0") by alice. -/
def pickAliceTool : CopickPicks :=
  { meta := { pickable_object_name := "ribosome", user_id := "alice", session_id := "0" } }

/-- A pick by a different user. -/
def pickBob2 : CopickPicks :=
  { meta := { pickable_object_name := "ribosome", user_id := "bob", session_id := "2" } }

/-- A run with a populated picks cache. -/
def runLoaded : CopickRun :=
  { meta := { name := "TS_001" }, picks_ := some [pickAlice1, pickAliceTool, pickBob2] }

/-- A voxel spacing of size 10 attached to `runVS`. -/
def vs10 : CopickVoxelSpacing := { meta := { voxel_size := 10 } }

/-- A run with populated voxel-spacing and segmentation caches. -/
def runVS : CopickRun :=
  { meta := { name := "TS_001" }, voxel_spacings_ := some [vs10], segmentations_ := some [] }

/-- A point at the origin with the default identity transform. -/
def originPoint : CopickPoint := { location := { x := 0, y := 0, z := 0 } }

/-- Scanning an appended list skips a prefix on which the predicate fails. -/
theorem find?_append_right {α : Type} (p : α → Bool) (l1 l2 : List α)
    (h : ∀ x ∈ l1, p x = false) : (l1 ++ l2).find? p = l2.find? p := by
  induction l1 with
  | nil => rfl
  | cons a t ih =>
    rw [List.cons_append, List.find?_cons_of_neg, ih]
    · intro x hx
      exact h x (List.mem_cons_of_mem a hx)
    · simp [h a (List.mem_cons_self a t)]

/-- Two successive filters agree with a single conjunctive filter, in
application order. -/
theorem filter_swap {α : Type} (p q : α → Bool) (l : List α) :
    (l.filter p).filter q = l.filter fun a => p a && q a := by
  rw [List.filter_filter]
  apply List.filter_congr
  intro a _
  cases p a <;> cases q a <;> rfl

/-- Unfolding of `new_run` on a populated run cache. -/
theorem new_run_populated (be : Backend) (root : CopickRoot) (rs : List CopickRun)
    (name : String) (h : root.runs_ = some rs) :
    CopickRoot.new_run be root name =
      if name ∈ rs.map (fun r => r.meta.name) then
        (Except.error (Err.valueError ("Run name " ++ name ++ " already exists.")), root)
      else
        match be.runEnsure { name := name } true with
        | Except.error e =>
          (Except.error e, { root with runs_ := some (rs ++ [{ meta := { name := name } }]) })
        | Except.ok _ =>
          (Except.ok { meta := { name := name } },
           { root with runs_ := some (rs ++ [{ meta := { name := name } }]) }) := by
  simp only [CopickRoot.new_run, CopickRoot.runsProp, h]

/-- Inversion of a successful `new_run`: the loaded cache had no run of that
name, the result is the freshly constructed run, and the new cache is the old
one with the new run appended. -/
theorem new_run_ok_inv (be : Backend) (root : CopickRoot) (name : String)
    (r : CopickRun) (root' : CopickRoot)
    (h : CopickRoot.new_run be root name = (Except.ok r, root')) :
    ∃ rs : List CopickRun, name ∉ rs.map (fun x => x.meta.name) ∧
      r = { meta := { name := name } } ∧
      root' = { root with runs_ := some (rs ++ [r]) } := by
  rcases hc : root.runs_ with _ | rs
  · rcases hq : be.rootQuery with e | o
    · simp [CopickRoot.new_run, CopickRoot.runsProp, hc, hq] at h
    · rcases o with _ | rs
      · simp [CopickRoot.new_run, CopickRoot.runsProp, hc, hq] at h
      · by_cases hin : name ∈ rs.map (fun x => x.meta.name)
        · simp [CopickRoot.new_run, CopickRoot.runsProp, hc, hq, hin] at h
        · rcases he : be.runEnsure { name := name } true with e | b
          · simp [CopickRoot.new_run, CopickRoot.runsProp, hc, hq, hin, he] at h
          · simp [CopickRoot.new_run, CopickRoot.runsProp, hc, hq, hin, he] at h
            refine ⟨rs, hin, h.1.symm, ?_⟩
            rw [← h.2, h.1]
  · by_cases hin : name ∈ rs.map (fun x => x.meta.name)
    · simp [new_run_populated be root rs name hc, hin] at h
    · rcases he : be.runEnsure { name := name } true with e | b
      · simp [new_run_populated be root rs name hc, hin, he] at h
      · simp [new_run_populated be root rs name hc, hin, he] at h
        refine ⟨rs, hin, h.1.symm, ?_⟩
        rw [← h.2, h.1]

/-- Claim C1: after `new_run(N)` has succeeded, a second `new_run(N)` on the
same root fails with a conflict `ValueError` carrying `N` in its message and
leaves the state untouched, and `get_run(N)` afterwards still returns the
first-created run, unchanged, without consulting the backend. -/
theorem C1_run_name_conflict (be : Backend) (root : CopickRoot) (name : String)
    (r : CopickRun) (root' : CopickRoot)
    (h : CopickRoot.new_run be root name = (Except.ok r, root')) :
    CopickRoot.new_run be root' name =
      (Except.error (Err.valueError ("Run name " ++ name ++ " already exists.")), root') ∧
    CopickRoot.get_run be root' name = (Except.ok (some r), root', []) := by
  obtain ⟨rs, hnotin, hr, hroot'⟩ := new_run_ok_inv be root name r root' h
  have hcache : root'.runs_ = some (rs ++ [r]) := by rw [hroot']
  have hin : name ∈ (rs ++ [r]).map (fun x => x.meta.name) := by
    rw [hr]; simp
  constructor
  · rw [new_run_populated be root' (rs ++ [r]) name hcache, if_pos hin]
  · have hfind : (rs ++ [r]).find? (fun x => x.meta.name == name) = some r := by
      rw [find?_append_right]
      · rw [List.find?_cons_of_pos]
        rw [hr]
        simp
      · intro x hx
        simp only [beq_eq_false_iff_ne, ne_eq]
        intro hxname
        exact hnotin (List.mem_map.mpr ⟨x, hx, hxname⟩)
    simp only [CopickRoot.get_run, hcache, hfind]

/-- Witness for C1 at a concrete root, backend and run name. -/
theorem C1_witness :
    CopickRoot.new_run okBackend rootDup "TS_001" =
      (Except.error (Err.valueError ("Run name " ++ "TS_001" ++ " already exists.")), rootDup) ∧
    CopickRoot.get_run okBackend rootDup "TS_001" = (Except.ok (some runTS), rootDup, []) :=
  C1_run_name_conflict okBackend rootEmpty "TS_001" runTS rootDup rfl

/-- Claim C2 evaluation: every abstract Backend Contract method of the base
classes fails with a NotImplementedError — except `CopickRoot.query`, whose
body is `pass` and therefore returns `None` normally, and the non-particle
case of `CopickObject.zarr`, which returns `None` normally. -/
theorem C2_base_contract_eval :
    CopickRoot.queryBase = none ∧
    CopickRun.query_voxelspacingsBase =
      Except.error (Err.notImplementedError "query_voxelspacings must be implemented for CopickRun.") ∧
    CopickRun.query_picksBase =
      Except.error (Err.notImplementedError "query_picks must be implemented for CopickRun.") ∧
    CopickRun.query_meshesBase =
      Except.error (Err.notImplementedError "query_meshes must be implemented for CopickRun.") ∧
    CopickRun.query_segmentationsBase =
      Except.error (Err.notImplementedError "query_segmentations must be implemented for CopickRun.") ∧
    CopickRun.ensureBase false =
      Except.error (Err.notImplementedError "ensure must be implemented for CopickRun.") ∧
    CopickRun.ensureBase true =
      Except.error (Err.notImplementedError "ensure must be implemented for CopickRun.") ∧
    CopickVoxelSpacing.ensureBase false =
      Except.error (Err.notImplementedError "ensure must be implemented for CopickVoxelSpacing.") ∧
    CopickVoxelSpacing.ensureBase true =
      Except.error (Err.notImplementedError "ensure must be implemented for CopickVoxelSpacing.") ∧
    CopickVoxelSpacing.query_tomogramsBase =
      Except.error (Err.notImplementedError "query_tomograms must be implemented for CopickVoxelSpacing.") ∧
    CopickTomogram.query_featuresBase =
      Except.error (Err.notImplementedError "query_features must be implemented for CopickTomogram.") ∧
    CopickTomogram.zarrBase =
      Except.error (Err.notImplementedError "zarr must be implemented for CopickTomogram.") ∧
    CopickFeatures.zarrBase =
      Except.error (Err.notImplementedError "zarr must be implemented for CopickFeatures.") ∧
    CopickSegmentation.zarrBase =
      Except.error (Err.notImplementedError "zarr must be implemented for CopickSegmentation.") ∧
    CopickPicks.loadBase =
      Except.error (Err.notImplementedError "load must be implemented for CopickPicks.") ∧
    CopickPicks.storeBase =
      Except.error (Err.notImplementedError "store must be implemented for CopickPicks.") ∧
    CopickMesh.loadBase =
      Except.error (Err.notImplementedError "load must be implemented for CopickMesh.") ∧
    CopickMesh.storeBase =
      Except.error (Err.notImplementedError "store must be implemented for CopickMesh.") ∧
    CopickObject.zarrBase true =
      Except.error (Err.notImplementedError "zarr method must be implemented for particle objects.") ∧
    CopickObject.zarrBase false = Except.ok none :=
  ⟨rfl, rfl, rfl, rfl, rfl, rfl, rfl, rfl, rfl, rfl, rfl, rfl, rfl, rfl,
   rfl, rfl, rfl, rfl, rfl, rfl⟩

/-- Claim C4 (amended): on an unpopulated cache, `get_run` and
`get_voxel_spacing` perform exactly one backend existence check and no
collection load, returning a transient instance precisely when the backend
confirms existence; `get_tomogram`, by contrast, reads the `tomograms`
property, forcing a full collection load before scanning. -/
theorem C4_targeted_lookup (be : Backend) :
    (∀ (root : CopickRoot) (name : String) (b : Bool),
      root.runs_ = none → be.runEnsure { name := name } false = Except.ok b →
      CopickRoot.get_run be root name =
        (Except.ok (if b then some { meta := { name := name } } else none), root,
         [BCall.ensure false])) ∧
    (∀ (run : CopickRun) (v : ℚ) (b : Bool),
      run.voxel_spacings_ = none → be.vsEnsure { voxel_size := v } false = Except.ok b →
      CopickRun.get_voxel_spacing be run v =
        (Except.ok (if b then some { meta := { voxel_size := v } } else none), run,
         [BCall.ensure false])) ∧
    (∀ (vs : CopickVoxelSpacing) (tomo_type : String) (ts : List CopickTomogram),
      vs.tomograms_ = none → be.queryTomograms vs.meta = Except.ok ts →
      CopickVoxelSpacing.get_tomogram be vs tomo_type =
        (Except.ok (ts.find? fun t => t.meta.tomo_type == tomo_type),
         { vs with tomograms_ := some ts }, [BCall.query])) := by
  refine ⟨?_, ?_, ?_⟩
  · intro root name b h hb
    cases b <;> simp [CopickRoot.get_run, h, hb]
  · intro run v b h hb
    cases b <;> simp [CopickRun.get_voxel_spacing, h, hb]
  · intro vs tomo_type ts h hq
    simp [CopickVoxelSpacing.get_tomogram, CopickVoxelSpacing.tomogramsProp, h, hq]

/-- Witness for C4 (amended) at a concrete cold-cache root. -/
theorem C4_witness :
    CopickRoot.get_run okBackend { config := cfg0 } "TS_001" =
      (Except.ok (some runTS), { config := cfg0 }, [BCall.ensure false]) :=
  (C4_targeted_lookup okBackend).1 { config := cfg0 } "TS_001" true rfl rfl

/-- Counterexample to C4 as stated: with an unpopulated tomogram cache, a
targeted `get_tomogram` lookup issues a full collection query rather than a
single existence check, and populates the cache as a side effect. -/
theorem C4_counterexample :
    (CopickVoxelSpacing.get_tomogram beTomo vsColdCache "wbp").2.2 = [BCall.query] ∧
    (CopickVoxelSpacing.get_tomogram beTomo vsColdCache "wbp").2.2 ≠ [BCall.ensure false] ∧
    (CopickVoxelSpacing.get_tomogram beTomo vsColdCache "wbp").2.1.tomograms_ = some [tomoWbp] ∧
    (CopickVoxelSpacing.get_tomogram beTomo vsColdCache "wbp").1 = Except.ok (some tomoWbp) :=
  ⟨rfl, by decide, rfl, rfl⟩

/-- Unfolding of `get_picks` on a populated picks cache: the three optional
filters applied in source order (object name, then user id, then session
id). -/
theorem get_picks_populated (be : Backend) (run : CopickRun) (l : List CopickPicks)
    (obj u s : Option String) (h : run.picks_ = some l) :
    CopickRun.get_picks be run obj u s =
      (Except.ok
        (filterBy (fun p : CopickPicks => p.meta.session_id) s
          (filterBy (fun p : CopickPicks => p.meta.user_id) u
            (filterBy (fun p : CopickPicks => p.meta.pickable_object_name) obj l))), run) := by
  cases obj <;> cases u <;> cases s <;>
    simp [CopickRun.get_picks, CopickRun.picksProp, h, filterBy]

/-- Unfolding of `get_meshes` on a populated meshes cache. -/
theorem get_meshes_populated (be : Backend) (run : CopickRun) (l : List CopickMesh)
    (obj u s : Option String) (h : run.meshes_ = some l) :
    CopickRun.get_meshes be run obj u s =
      (Except.ok
        (filterBy (fun m : CopickMesh => m.meta.session_id) s
          (filterBy (fun m : CopickMesh => m.meta.user_id) u
            (filterBy (fun m : CopickMesh => m.meta.pickable_object_name) obj l))), run) := by
  cases obj <;> cases u <;> cases s <;>
    simp [CopickRun.get_meshes, CopickRun.meshesProp, h, filterBy]

/-- On a populated segmentations cache, `get_segmentations` does not change
the run and cannot fail. -/
theorem get_segmentations_populated (be : Backend) (run : CopickRun)
    (l : List CopickSegmentation) (u s : Option String) (ml : Option Bool)
    (nm : Option String) (v : Option ℚ) (h : run.segmentations_ = some l) :
    (CopickRun.get_segmentations be run u s ml nm v).2 = run ∧
    ∀ e, (CopickRun.get_segmentations be run u s ml nm v).1 ≠ Except.error e := by
  cases u <;> cases s <;> cases ml <;> cases nm <;> cases v <;>
    simp [CopickRun.get_segmentations, CopickRun.segmentationsProp, h]

/-- The sequential filters coincide with the single conjunctive filter. -/
theorem filterBy_chain_eq_pickMatch (obj u s : Option String) (l : List CopickPicks) :
    filterBy (fun p : CopickPicks => p.meta.session_id) s
      (filterBy (fun p : CopickPicks => p.meta.user_id) u
        (filterBy (fun p : CopickPicks => p.meta.pickable_object_name) obj l)) =
      l.filter (fun p => pickMatch obj u s p) := by
  cases obj <;> cases u <;> cases s <;>
    simp [filterBy, pickMatch, Option.all, List.filter_filter,
      Bool.and_comm, Bool.and_left_comm, Bool.and_assoc]

/-- Claim C5: with a loaded picks collection, `get_picks` returns exactly
the picks satisfying every supplied filter; the result equals the single
conjunctive filter and also equals the filters applied in the reverse
order, so it is independent of filter order; and a call with no filters
returns all picks unchanged. -/
theorem C5_get_picks_filters (be : Backend) (run : CopickRun) (l : List CopickPicks)
    (obj u s : Option String) (h : run.picks_ = some l) :
    CopickRun.get_picks be run obj u s =
      (Except.ok (l.filter (fun p => pickMatch obj u s p)), run) ∧
    (∀ p : CopickPicks, p ∈ l.filter (fun p => pickMatch obj u s p) ↔
      p ∈ l ∧ pickMatch obj u s p = true) ∧
    filterBy (fun p : CopickPicks => p.meta.pickable_object_name) obj
      (filterBy (fun p : CopickPicks => p.meta.user_id) u
        (filterBy (fun p : CopickPicks => p.meta.session_id) s l)) =
      l.filter (fun p => pickMatch obj u s p) ∧
    CopickRun.get_picks be run none none none = (Except.ok l, run) := by
  refine ⟨?_, ?_, ?_, ?_⟩
  · rw [get_picks_populated be run l obj u s h, filterBy_chain_eq_pickMatch]
  · intro p
    exact List.mem_filter
  · cases obj <;> cases u <;> cases s <;>
      simp [filterBy, pickMatch, Option.all, List.filter_filter,
        Bool.and_comm, Bool.and_left_comm, Bool.and_assoc]
  · rw [get_picks_populated be run l none none none h]
    simp [filterBy]

/-- Witness for C5 at concrete picks and filters. -/
theorem C5_witness :
    CopickRun.get_picks okBackend runLoaded (some "ribosome") none (some "0") =
      (Except.ok ([pickAlice1, pickAliceTool, pickBob2].filter
        (fun p => pickMatch (some "ribosome") none (some "0") p)), runLoaded) :=
  (C5_get_picks_filters okBackend runLoaded [pickAlice1, pickAliceTool, pickBob2]
    (some "ribosome") none (some "0") rfl).1

/-- A failing `new_run` on a populated cache with succeeding persistence
leaves the root unchanged. -/
theorem new_run_error_state (be : Backend) (root : CopickRoot) (rs : List CopickRun)
    (name : String) (e : Err) (root' : CopickRoot)
    (hc : root.runs_ = some rs)
    (hre : ∀ m c, ∃ b, be.runEnsure m c = Except.ok b)
    (h : CopickRoot.new_run be root name = (Except.error e, root')) :
    root' = root := by
  by_cases hin : name ∈ rs.map (fun x => x.meta.name)
  · rw [new_run_populated be root rs name hc, if_pos hin] at h
    exact (congrArg Prod.snd h).symm
  · obtain ⟨b, hb⟩ := hre { name := name } true
    rw [new_run_populated be root rs name hc, if_neg hin] at h
    simp only [hb] at h
    simp at h

/-- A failing `new_voxel_spacing` on a populated cache with succeeding
persistence leaves the run unchanged. -/
theorem new_voxel_spacing_error_state (be : Backend) (run : CopickRun)
    (vss : List CopickVoxelSpacing) (v : ℚ) (e : Err) (run' : CopickRun)
    (hc : run.voxel_spacings_ = some vss)
    (hvse : ∀ m c, ∃ b, be.vsEnsure m c = Except.ok b)
    (h : CopickRun.new_voxel_spacing be run v = (Except.error e, run')) :
    run' = run := by
  by_cases hin : v ∈ vss.map (fun x => x.meta.voxel_size)
  · simp only [CopickRun.new_voxel_spacing, CopickRun.voxel_spacingsProp, hc, if_pos hin] at h
    exact (congrArg Prod.snd h).symm
  · obtain ⟨b, hb⟩ := hvse { voxel_size := v } true
    simp only [CopickRun.new_voxel_spacing, CopickRun.voxel_spacingsProp, hc, if_neg hin, hb] at h
    simp at h

/-- A failing `new_tomogram` on a populated cache with succeeding
persistence leaves the voxel spacing unchanged. -/
theorem new_tomogram_error_state (be : Backend) (vs : CopickVoxelSpacing)
    (ts : List CopickTomogram) (tt : String) (e : Err) (vs' : CopickVoxelSpacing)
    (hc : vs.tomograms_ = some ts)
    (htz : ∀ m, be.tomoZarr m = Except.ok ())
    (h : CopickVoxelSpacing.new_tomogram be vs tt = (Except.error e, vs')) :
    vs' = vs := by
  by_cases hin : tt ∈ ts.map (fun x => x.meta.tomo_type)
  · simp only [CopickVoxelSpacing.new_tomogram, CopickVoxelSpacing.tomogramsProp, hc,
      if_pos hin] at h
    exact (congrArg Prod.snd h).symm
  · simp only [CopickVoxelSpacing.new_tomogram, CopickVoxelSpacing.tomogramsProp, hc,
      if_neg hin, htz] at h
    simp at h

/-- A failing `new_features` on a populated cache with succeeding
persistence leaves the tomogram unchanged. -/
theorem new_features_error_state (be : Backend) (t : CopickTomogram)
    (fs : List CopickFeatures) (ft : String) (e : Err) (t' : CopickTomogram)
    (hc : t.features_ = some fs)
    (hfz : ∀ m, be.featZarr m = Except.ok ())
    (h : CopickTomogram.new_features be t ft = (Except.error e, t')) :
    t' = t := by
  by_cases hin : ft ∈ fs.map (fun x => x.meta.feature_type)
  · simp only [CopickTomogram.new_features, CopickTomogram.featuresProp, hc, if_pos hin] at h
    exact (congrArg Prod.snd h).symm
  · simp only [CopickTomogram.new_features, CopickTomogram.featuresProp, hc, if_neg hin, hfz] at h
    simp at h

/-- A failing `new_picks` on a populated picks cache with succeeding
persistence leaves the run unchanged. -/
theorem new_picks_error_state (be : Backend) (cfg : CopickConfig) (run : CopickRun)
    (ps : List CopickPicks) (obj sid : String) (uid : Option String) (e : Err)
    (run' : CopickRun)
    (hc : run.picks_ = some ps)
    (hps : ∀ f, be.picksStore f = Except.ok ())
    (h : CopickRun.new_picks be cfg run obj sid uid = (Except.error e, run')) :
    run' = run := by
  by_cases hobj : obj ∈ cfg.pickable_objects.map (fun o => o.name)
  · rcases huid : (match uid with | none => cfg.user_id | some u => some u) with _ | u
    · simp only [CopickRun.new_picks, if_neg (not_not_intro hobj), huid] at h
      exact (congrArg Prod.snd h).symm
    · simp only [CopickRun.new_picks, if_neg (not_not_intro hobj), huid,
        get_picks_populated be run ps (some obj) (some u) (some sid) hc] at h
      by_cases hdup :
          filterBy (fun p : CopickPicks => p.meta.session_id) (some sid)
            (filterBy (fun p : CopickPicks => p.meta.user_id) (some u)
              (filterBy (fun p : CopickPicks => p.meta.pickable_object_name) (some obj) ps)) = []
      · simp only [if_neg (not_not_intro hdup), hps] at h
        simp at h
      · simp only [if_pos hdup] at h
        exact (congrArg Prod.snd h).symm
  · simp only [CopickRun.new_picks, if_pos hobj] at h
    exact (congrArg Prod.snd h).symm

/-- A failing `new_mesh` on a populated meshes cache with succeeding
persistence leaves the run unchanged. -/
theorem new_mesh_error_state (be : Backend) (cfg : CopickConfig) (run : CopickRun)
    (ms : List CopickMesh) (obj sid : String) (uid : Option String) (e : Err)
    (run' : CopickRun)
    (hc : run.meshes_ = some ms)
    (hms : ∀ m, be.meshStore m = Except.ok ())
    (h : CopickRun.new_mesh be cfg run obj sid uid = (Except.error e, run')) :
    run' = run := by
  by_cases hobj : obj ∈ cfg.pickable_objects.map (fun o => o.name)
  · rcases huid : (match uid with | none => cfg.user_id | some u => some u) with _ | u
    · simp only [CopickRun.new_mesh, if_neg (not_not_intro hobj), huid] at h
      exact (congrArg Prod.snd h).symm
    · simp only [CopickRun.new_mesh, if_neg (not_not_intro hobj), huid,
        get_meshes_populated be run ms (some obj) (some u) (some sid) hc] at h
      by_cases hdup :
          filterBy (fun m : CopickMesh => m.meta.session_id) (some sid)
            (filterBy (fun m : CopickMesh => m.meta.user_id) (some u)
              (filterBy (fun m : CopickMesh => m.meta.pickable_object_name) (some obj) ms)) = []
      · simp only [if_neg (not_not_intro hdup), hms] at h
        simp at h
      · simp only [if_pos hdup] at h
        exact (congrArg Prod.snd h).symm
  · simp only [CopickRun.new_mesh, if_pos hobj] at h
    exact (congrArg Prod.snd h).symm

/-- A failing `new_segmentation` on populated voxel-spacing and
segmentation caches with succeeding persistence leaves the run unchanged. -/
theorem new_segmentation_error_state (be : Backend) (cfg : CopickConfig)
    (run : CopickRun) (vss : List CopickVoxelSpacing) (ss : List CopickSegmentation)
    (v : ℚ) (nm sid : String) (ml : Bool) (uid : Option String) (e : Err)
    (run' : CopickRun)
    (hvs : run.voxel_spacings_ = some vss)
    (hsegs : run.segmentations_ = some ss)
    (hsz : ∀ m, be.segZarr m = Except.ok ())
    (h : CopickRun.new_segmentation be cfg run v nm sid ml uid = (Except.error e, run')) :
    run' = run := by
  by_cases hname : ml = false ∧ nm ∉ cfg.pickable_objects.map (fun o => o.name)
  · simp only [CopickRun.new_segmentation, if_pos hname] at h
    exact (congrArg Prod.snd h).symm
  · by_cases hvin : v ∈ vss.map (fun x => x.meta.voxel_size)
    · rcases huid : (match uid with | none => cfg.user_id | some u => some u) with _ | u
      · simp only [CopickRun.new_segmentation, if_neg hname, CopickRun.voxel_spacingsProp,
          hvs, if_neg (not_not_intro hvin), huid] at h
        exact (congrArg Prod.snd h).symm
      · obtain ⟨hseg2, hsegok⟩ := get_segmentations_populated be run ss (some u) (some sid)
          (some ml) (some nm) (some v) hsegs
        rcases hg : CopickRun.get_segmentations be run (some u) (some sid) (some ml)
            (some nm) (some v) with ⟨res, run2⟩
        have hrun2 : run2 = run := by rw [← hseg2, hg]
        rcases res with e2 | dups
        · exact absurd (by rw [hg]) (hsegok e2)
        · simp only [CopickRun.new_segmentation, if_neg hname, CopickRun.voxel_spacingsProp,
            hvs, if_neg (not_not_intro hvin), huid, hg] at h
          by_cases hdup : dups = []
          · simp only [if_neg (not_not_intro hdup), hsz] at h
            simp at h
          · simp only [if_pos hdup] at h
            rw [← hrun2]
            exact (congrArg Prod.snd h).symm
    · simp only [CopickRun.new_segmentation, if_neg hname, CopickRun.voxel_spacingsProp,
        hvs, if_pos hvin] at h
      exact (congrArg Prod.snd h).symm

/-- Claim C3 (amended): when the backend's persistence operations succeed,
every failing creation operation leaves the parent's populated child caches
exactly as they were before the call — validation, conflict, referential and
identity-resolution failures are all raised before the append, so no
partially appended entity is visible afterwards.  (Only a failure of the
persistence step itself, e.g. a contract gap, can leave the appended entity
behind, as the counterexample shows.) -/
theorem C3_failed_creation_preserves_cache (be : Backend) (cfg : CopickConfig)
    (hre : ∀ m c, ∃ b, be.runEnsure m c = Except.ok b)
    (hvse : ∀ m c, ∃ b, be.vsEnsure m c = Except.ok b)
    (htz : ∀ m, be.tomoZarr m = Except.ok ())
    (hfz : ∀ m, be.featZarr m = Except.ok ())
    (hsz : ∀ m, be.segZarr m = Except.ok ())
    (hps : ∀ f, be.picksStore f = Except.ok ())
    (hms : ∀ m, be.meshStore m = Except.ok ()) :
    (∀ (root : CopickRoot) rs name e root', root.runs_ = some rs →
      CopickRoot.new_run be root name = (Except.error e, root') → root' = root) ∧
    (∀ (run : CopickRun) vss v e run', run.voxel_spacings_ = some vss →
      CopickRun.new_voxel_spacing be run v = (Except.error e, run') → run' = run) ∧
    (∀ (vs : CopickVoxelSpacing) ts tt e vs', vs.tomograms_ = some ts →
      CopickVoxelSpacing.new_tomogram be vs tt = (Except.error e, vs') → vs' = vs) ∧
    (∀ (t : CopickTomogram) fs ft e t', t.features_ = some fs →
      CopickTomogram.new_features be t ft = (Except.error e, t') → t' = t) ∧
    (∀ (run : CopickRun) ps obj sid uid e run', run.picks_ = some ps →
      CopickRun.new_picks be cfg run obj sid uid = (Except.error e, run') → run' = run) ∧
    (∀ (run : CopickRun) ms obj sid uid e run', run.meshes_ = some ms →
      CopickRun.new_mesh be cfg run obj sid uid = (Except.error e, run') → run' = run) ∧
    (∀ (run : CopickRun) vss ss v nm sid ml uid e run',
      run.voxel_spacings_ = some vss → run.segmentations_ = some ss →
      CopickRun.new_segmentation be cfg run v nm sid ml uid = (Except.error e, run') →
      run' = run) := by
  refine ⟨?_, ?_, ?_, ?_, ?_, ?_, ?_⟩
  · intro root rs name e root' hc h
    exact new_run_error_state be root rs name e root' hc hre h
  · intro run vss v e run' hc h
    exact new_voxel_spacing_error_state be run vss v e run' hc hvse h
  · intro vs ts tt e vs' hc h
    exact new_tomogram_error_state be vs ts tt e vs' hc htz h
  · intro t fs ft e t' hc h
    exact new_features_error_state be t fs ft e t' hc hfz h
  · intro run ps obj sid uid e run' hc h
    exact new_picks_error_state be cfg run ps obj sid uid e run' hc hps h
  · intro run ms obj sid uid e run' hc h
    exact new_mesh_error_state be cfg run ms obj sid uid e run' hc hms h
  · intro run vss ss v nm sid ml uid e run' hvs hsegs h
    exact new_segmentation_error_state be cfg run vss ss v nm sid ml uid e run' hvs hsegs hsz h

/-- Witness for C3 (amended): a conflicting `new_run` against a populated
cache and a fully implemented backend leaves the root unchanged. -/
theorem C3_witness :
    (CopickRoot.new_run okBackend rootDup "TS_001").2 = rootDup := by
  have hthm := C3_failed_creation_preserves_cache okBackend cfg0
    (fun _ _ => ⟨true, rfl⟩) (fun _ _ => ⟨true, rfl⟩)
    (fun _ => rfl) (fun _ => rfl) (fun _ => rfl) (fun _ => rfl) (fun _ => rfl)
  exact hthm.1 rootDup [runTS] "TS_001"
    (Err.valueError ("Run name " ++ "TS_001" ++ " already exists."))
    (CopickRoot.new_run okBackend rootDup "TS_001").2 rfl rfl

/-- Counterexample to C3 as stated: with the abstract base backend, a
`new_run` that fails with a contract-gap NotImplementedError nevertheless
leaves the half-created run appended to the cache, where a subsequent
`get_run` finds it. -/
theorem C3_counterexample :
    (CopickRoot.new_run baseBackend rootEmpty "TS_001").1 =
      Except.error (Err.notImplementedError "ensure must be implemented for CopickRun.") ∧
    (CopickRoot.new_run baseBackend rootEmpty "TS_001").2.runs_ = some [runTS] ∧
    (CopickRoot.get_run baseBackend
        (CopickRoot.new_run baseBackend rootEmpty "TS_001").2 "TS_001").1 =
      Except.ok (some runTS) :=
  ⟨rfl, rfl, rfl⟩

/-- Claim C6: `new_picks` and `new_mesh` fail with the referential error
whenever the object name is absent from the root's pickable objects,
regardless of the supplied user id — the object-name check precedes user-id
resolution, so even an unresolvable user id yields the referential error,
and the run is left unchanged. -/
theorem C6_referential_check_first (be : Backend) (cfg : CopickConfig) (run : CopickRun)
    (object_name session_id : String) (user_id : Option String)
    (h : object_name ∉ cfg.pickable_objects.map (fun o => o.name)) :
    CopickRun.new_picks be cfg run object_name session_id user_id =
      (Except.error (Err.valueError
        ("Object name " ++ object_name ++ " not found in pickable objects.")), run) ∧
    CopickRun.new_mesh be cfg run object_name session_id user_id =
      (Except.error (Err.valueError
        ("Object name " ++ object_name ++ " not found in pickable objects.")), run) := by
  constructor
  · simp only [CopickRun.new_picks, if_pos h]
  · simp only [CopickRun.new_mesh, if_pos h]

/-- Witness for C6 at a concrete unknown object name and absent user id. -/
theorem C6_witness :
    CopickRun.new_picks okBackend cfg0 runLoaded "mystery" "7" none =
      (Except.error (Err.valueError
        ("Object name " ++ "mystery" ++ " not found in pickable objects.")), runLoaded) ∧
    CopickRun.new_mesh okBackend cfg0 runLoaded "mystery" "7" none =
      (Except.error (Err.valueError
        ("Object name " ++ "mystery" ++ " not found in pickable objects.")), runLoaded) :=
  C6_referential_check_first okBackend cfg0 runLoaded "mystery" "7" none (by decide)

/-- Claim C7: `new_segmentation` fails whenever the voxel size is absent
from the run's (loaded) voxel spacings, for arbitrary name and multilabel
flag; when the flag is true the failure is precisely the voxel-spacing
referential error, and the run is left unchanged. -/
theorem C7_segmentation_requires_voxel_spacing (be : Backend) (cfg : CopickConfig)
    (run : CopickRun) (vss : List CopickVoxelSpacing) (v : ℚ) (nm sid : String)
    (ml : Bool) (uid : Option String)
    (hvs : run.voxel_spacings_ = some vss)
    (h : v ∉ vss.map (fun x => x.meta.voxel_size)) :
    (∃ msg, CopickRun.new_segmentation be cfg run v nm sid ml uid =
      (Except.error (Err.valueError msg), run)) ∧
    (ml = true → CopickRun.new_segmentation be cfg run v nm sid ml uid =
      (Except.error (Err.valueError ("VoxelSpacing " ++ toString v ++
        " not found in voxel spacings for run " ++ run.meta.name ++ ".")), run)) := by
  by_cases hname : ml = false ∧ nm ∉ cfg.pickable_objects.map (fun o => o.name)
  · constructor
    · exact ⟨"Object name " ++ nm ++ " not found in pickable objects.",
        by simp only [CopickRun.new_segmentation, if_pos hname]⟩
    · intro hml
      rw [hml] at hname
      exact absurd hname.1 (by simp)
  · constructor
    · exact ⟨"VoxelSpacing " ++ toString v ++ " not found in voxel spacings for run " ++
        run.meta.name ++ ".",
        by simp only [CopickRun.new_segmentation, if_neg hname, CopickRun.voxel_spacingsProp,
          hvs, if_pos h]⟩
    · intro _
      simp only [CopickRun.new_segmentation, if_neg hname, CopickRun.voxel_spacingsProp,
        hvs, if_pos h]

/-- Witness for C7: multilabel segmentation with an arbitrary name at an
unknown voxel size. -/
theorem C7_witness :
    CopickRun.new_segmentation okBackend cfg0 runVS 20 "anything" "3" true none =
      (Except.error (Err.valueError ("VoxelSpacing " ++ toString (20 : ℚ) ++
        " not found in voxel spacings for run " ++ runVS.meta.name ++ ".")), runVS) :=
  (C7_segmentation_requires_voxel_spacing okBackend cfg0 runVS [vs10] 20 "anything" "3"
    true none rfl (by decide)).2 rfl

/-- Claim C8: assigning a 4x4 matrix whose corner element equals 1 exactly
and whose bottom row is allclose to [0,0,0,1] to `Point.transformation`
succeeds, and reading the property back yields the same matrix; assigning
any matrix violating these conditions fails, as does construction-time
validation. -/
theorem C8_transformation_roundtrip (p : CopickPoint) (M : List (List ℚ)) :
    ((shape44 M = true ∧ entry M 3 3 = 1 ∧ allclose (row3 M) [0, 0, 0, 1] = true) →
      CopickPoint.set_transformation p M = Except.ok { p with transformation_ := M } ∧
      CopickPoint.transformation { p with transformation_ := M } = M ∧
      validate_transformation M = Except.ok M) ∧
    (¬(shape44 M = true ∧ entry M 3 3 = 1 ∧ allclose (row3 M) [0, 0, 0, 1] = true) →
      (∃ msg, CopickPoint.set_transformation p M = Except.error msg) ∧
      (∃ msg, validate_transformation M = Except.error msg)) := by
  constructor
  · rintro ⟨h1, h2, h3⟩
    refine ⟨?_, rfl, ?_⟩ <;>
      simp [CopickPoint.set_transformation, validate_transformation, h1, h2, h3]
  · intro hng
    by_cases h1 : shape44 M = true
    · by_cases h2 : entry M 3 3 = 1
      · have h3 : ¬ allclose (row3 M) [0, 0, 0, 1] = true := fun h3 => hng ⟨h1, h2, h3⟩
        exact ⟨⟨"Last row of transformation matrix must be [0, 0, 0, 1].",
                 by simp [CopickPoint.set_transformation, h1, h2, h3]⟩,
               ⟨"Last row of transformation matrix must be [0, 0, 0, 1].",
                 by simp [validate_transformation, h1, h2, h3]⟩⟩
      · exact ⟨⟨"Last element of transformation matrix must be 1.0.",
                 by simp [CopickPoint.set_transformation, h1, h2]⟩,
               ⟨"Last element of transformation matrix must be 1.0.",
                 by simp [validate_transformation, h1, h2]⟩⟩
    · exact ⟨⟨"Transformation must be a 4x4 matrix.",
               by simp [CopickPoint.set_transformation, h1]⟩,
             ⟨"transformation must be a 4x4 matrix.",
               by simp [validate_transformation, h1]⟩⟩

/-- Witness for C8 at the identity matrix. -/
theorem C8_witness :
    CopickPoint.set_transformation originPoint
      [[1, 0, 0, 0], [0, 1, 0, 0], [0, 0, 1, 0], [0, 0, 0, 1]] =
      Except.ok { originPoint with transformation_ :=
        [[1, 0, 0, 0], [0, 1, 0, 0], [0, 0, 1, 0], [0, 0, 0, 1]] } :=
  ((C8_transformation_roundtrip originPoint
    [[1, 0, 0, 0], [0, 1, 0, 0], [0, 0, 1, 0], [0, 0, 0, 1]]).1
    ⟨by decide, by norm_num [entry],
     by norm_num [allclose, row3, isClose, rabs, atol, rtol]⟩).1

/-- Claim C9: for any 4-component color with all components in [0,255],
construction succeeds and stores the color unchanged; any wrong-arity or
out-of-range color makes construction fail. -/
theorem C9_color_validation (name : String) (is_particle : Bool) (label : Option Int)
    (color : List Int) (hl : label ≠ some 0) :
    ((color.length = 4 ∧ ∀ c ∈ color, 0 ≤ c ∧ c ≤ 255) →
      PickableObject.construct name is_particle label (some color) =
        Except.ok { name := name, is_particle := is_particle, label := label,
                    color := some color }) ∧
    (¬(color.length = 4 ∧ ∀ c ∈ color, 0 ≤ c ∧ c ≤ 255) →
      ∃ msg, PickableObject.construct name is_particle label (some color) =
        Except.error msg) := by
  have hlab : validate_label label = Except.ok label := by
    simp [validate_label, hl]
  constructor
  · rintro ⟨h4, hr⟩
    simp [PickableObject.construct, hlab, parseColorArity, validate_color, h4]
    rw [if_pos hr]
  · intro hng
    by_cases h4 : color.length = 4
    · have hrneg : ¬ ∀ c ∈ color, 0 ≤ c ∧ c ≤ 255 := fun hr => hng ⟨h4, hr⟩
      exact ⟨"Color values must be in the range [0, 255].",
        by simp [PickableObject.construct, hlab, parseColorArity, validate_color, h4, hrneg]⟩
    · exact ⟨"value is not a valid tuple (wrong arity)",
        by simp [PickableObject.construct, hlab, parseColorArity, h4]⟩

/-- Witness for C9 at a concrete valid RGBA tuple. -/
theorem C9_witness :
    PickableObject.construct "ribosome" true (some 1) (some [255, 0, 0, 255]) =
      Except.ok { name := "ribosome", is_particle := true, label := some 1,
                  color := some [255, 0, 0, 255] } :=
  (C9_color_validation "ribosome" true (some 1) [255, 0, 0, 255] (by decide)).1
    ⟨rfl, by decide⟩

/-- Claim C10: with no configured user id, `user_picks` returns exactly the
picks whose session id differs from "0"; with a configured user id it
instead returns exactly the picks whose user id matches it, which includes
tool-generated picks (session id "0") by that user. -/
theorem C10_user_picks_semantics (be : Backend) (cfg : CopickConfig) (run : CopickRun)
    (l : List CopickPicks) (h : run.picks_ = some l) :
    (cfg.user_id = none →
      CopickRun.user_picks be cfg run =
        (Except.ok (l.filter fun p => p.meta.session_id != "0"), run)) ∧
    (∀ uid, cfg.user_id = some uid →
      CopickRun.user_picks be cfg run =
        (Except.ok (l.filter fun p => p.meta.user_id == uid), run) ∧
      ∀ p ∈ l, p.meta.user_id = uid → p ∈ l.filter fun p => p.meta.user_id == uid) := by
  constructor
  · intro hu
    simp only [CopickRun.user_picks, hu, CopickRun.picksProp, h]
  · intro uid hu
    constructor
    · simp only [CopickRun.user_picks, hu]
      rw [get_picks_populated be run l none (some uid) none h]
      simp [filterBy]
    · intro p hp hpu
      rw [List.mem_filter]
      exact ⟨hp, by simp [hpu]⟩

/-- Witness for C10 with a configured user id; the result includes the
tool-generated pick with session id "0". -/
theorem C10_witness :
    CopickRun.user_picks okBackend cfgAlice runLoaded =
      (Except.ok ([pickAlice1, pickAliceTool, pickBob2].filter
        fun p => p.meta.user_id == "alice"), runLoaded) :=
  ((C10_user_picks_semantics okBackend cfgAlice runLoaded
    [pickAlice1, pickAliceTool, pickBob2] rfl).2 "alice" rfl).1
